import Mathlib

/-
Verification of Pharos-Bot behaviours against its Python sources.

Each section embeds one unit of the code base as executable Lean
definitions (shallow embedding: dict iteration becomes list traversal,
exceptions become Except, random draws and network responses become
explicit parameters), then proves or refutes the documented claims.
-/

instance exceptDecEq (ε α : Type) [DecidableEq ε] [DecidableEq α] :
    DecidableEq (Except ε α) := fun x y =>
  match x, y with
  | .ok a, .ok b =>
    match decEq a b with
    | isTrue h => isTrue (h ▸ rfl)
    | isFalse h => isFalse fun hh => h (Except.ok.inj hh)
  | .error a, .error b =>
    match decEq a b with
    | isTrue h => isTrue (h ▸ rfl)
    | isFalse h => isFalse fun hh => h (Except.error.inj hh)
  | .ok _, .error _ => isFalse fun hh => Except.noConfusion hh
  | .error _, .ok _ => isFalse fun hh => Except.noConfusion hh

/-! ## Zenith swap-pair validation (src/tasks/zenith/config_modules.py) -/

/-- One entry of the PAIR_SWAP table: (token_out, token_in, min_amount).
`min_amount` is an int-or-float percentage, embedded as a rational. -/
structure SwapPair where
  token_out : String
  token_in : String
  min_amount : Rat
deriving DecidableEq

/-- The distinct raise sites of `validate_pair_swap`. -/
inductive PairSwapError
  | emptyPairNonzeroAmount (pair_id : Nat)
  | incompletePair (pair_id : Nat)
  | sameTokens (pair_id : Nat)
  | invalidPercentage (pair_id : Nat)
  | noActivePairs
deriving DecidableEq

/-- Python `str.lower()` (ASCII case folding). -/
def str_lower (s : String) : String :=
  String.mk (s.toList.map Char.toLower)

/-- The body of the `for pair_id, swap_data in value.items()` loop of
`validate_pair_swap` (config_modules.py lines 16-51), followed by the
final `has_active_pairs` check (lines 54-56).  The boolean argument is
the `has_active_pairs` flag.  Note: the source sets the flag and falls
through to the partial-configuration check even for a fully empty pair
with `min_amount = 0` (there is no `continue` after line 28). -/
def validate_pair_swap_loop : List (Nat × SwapPair) → Bool → Except PairSwapError Unit
  | [], has_active_pairs =>
      if has_active_pairs then .ok () else .error .noActivePairs
  | (pair_id, d) :: rest, _ =>
      if d.token_out = "" ∧ d.token_in = "" ∧ d.min_amount ≠ 0 then
        .error (.emptyPairNonzeroAmount pair_id)
      else if d.token_out = "" ∨ d.token_in = "" then
        .error (.incompletePair pair_id)
      else if str_lower d.token_out = str_lower d.token_in then
        .error (.sameTokens pair_id)
      else if d.min_amount ≤ 0 then
        .error (.invalidPercentage pair_id)
      else validate_pair_swap_loop rest true

/-- `validate_pair_swap` (config_modules.py lines 11-58).  The dict is
embedded as its insertion-ordered entry list; on success the source
returns the value unchanged. -/
def validate_pair_swap (value : List (Nat × SwapPair)) :
    Except PairSwapError (List (Nat × SwapPair)) :=
  match validate_pair_swap_loop value false with
  | .ok () => .ok value
  | .error e => .error e

/-! ## Wallet native-token test and balance dispatch (src/wallet.py) -/

def ZERO_ADDRESS : String := "0x0000000000000000000000000000000000000000"

/-- `n.isPreOf h` decides whether `n` is an initial segment of `h`. -/
def listStartsWith : List Char → List Char → Bool
  | [], _ => true
  | _ :: _, [] => false
  | a :: as, b :: bs => a == b && listStartsWith as bs

/-- Python `needle in haystack` on strings: contiguous-substring test. -/
def py_str_contains (haystack needle : String) : Bool :=
  (List.range (haystack.toList.length + 1)).any fun i =>
    listStartsWith needle.toList (haystack.toList.drop i)

/-- `_is_native_token` (wallet.py lines 214-215): the source reads
`token_address in (self.ZERO_ADDRESS)`; the parentheses do not build a
tuple, so this is string containment in the zero-address literal. -/
def is_native_token (token_address : String) : Bool :=
  py_str_contains ZERO_ADDRESS token_address

/-- The two RPC calls `token_balance` can dispatch to. -/
inductive BalanceQuery
  | native
  | balanceOf (token_address : String)
deriving DecidableEq

/-- The dispatch decision of `token_balance` (wallet.py lines 205-212). -/
def token_balance (token_address : String) : BalanceQuery :=
  if is_native_token token_address then .native
  else .balanceOf token_address

theorem listStartsWith_iff (n h : List Char) :
    listStartsWith n h = true ↔ ∃ t, h = n ++ t := by
  induction n generalizing h with
  | nil => simp [listStartsWith]
  | cons a as ih =>
    cases h with
    | nil => simp [listStartsWith]
    | cons b bs =>
      simp only [listStartsWith, Bool.and_eq_true, beq_iff_eq, ih, List.cons_append,
        List.cons.injEq]
      constructor
      · rintro ⟨rfl, t, rfl⟩
        exact ⟨t, rfl, rfl⟩
      · rintro ⟨t, rfl, rfl⟩
        exact ⟨rfl, t, rfl⟩

theorem py_str_contains_iff (haystack needle : String) :
    py_str_contains haystack needle = true ↔
      ∃ l r, haystack.toList = l ++ needle.toList ++ r := by
  simp only [py_str_contains, List.any_eq_true, List.mem_range, listStartsWith_iff]
  constructor
  · rintro ⟨i, _, t, ht⟩
    refine ⟨haystack.toList.take i, t, ?_⟩
    rw [List.append_assoc, ← ht, List.take_append_drop]
  · rintro ⟨l, r, hl⟩
    refine ⟨l.length, ?_, r, ?_⟩
    · have : haystack.toList.length = l.length + (needle.toList.length + r.length) := by
        rw [hl]; simp [List.length_append]
      omega
    · rw [hl, List.append_assoc, List.drop_left]

/-! ## Telegram reporter statistics (src/utils/telegram_reporter.py) -/

structure ModuleExecutionResult where
  is_successful : Bool
  status_message : String
deriving DecidableEq

structure AccountExecutionResult where
  wallet_address : String
  overall_success : Bool
  summary_message : String
  module_results : List (String × ModuleExecutionResult)
deriving DecidableEq

/-- `successful_modules_count` (telegram_reporter.py lines 53-56). -/
def successful_modules_count (a : AccountExecutionResult) : Nat :=
  (a.module_results.filter fun r => r.2.is_successful).length

/-- `total_modules_count` (telegram_reporter.py lines 58-61). -/
def total_modules_count (a : AccountExecutionResult) : Nat :=
  a.module_results.length

/-- Python `round` to an integer: round half to even. -/
def python_round (q : Rat) : Int :=
  if Int.fract q < 1 / 2 then ⌊q⌋
  else if 1 / 2 < Int.fract q then ⌈q⌉
  else if ⌊q⌋ % 2 = 0 then ⌊q⌋ else ⌈q⌉

/-- Python `round(q, ndigits)`. -/
def python_round_digits (ndigits : Nat) (q : Rat) : Rat :=
  python_round (q * 10 ^ ndigits) / 10 ^ ndigits

/-- `success_percentage` (telegram_reporter.py lines 63-68), with the
float arithmetic embedded over the rationals. -/
def success_percentage (a : AccountExecutionResult) : Rat :=
  if total_modules_count a = 0 then 0
  else
    python_round_digits 2
      ((successful_modules_count a : Rat) / (total_modules_count a : Rat) * 100)

/-- A concrete account record with 4 module results, 3 of them successful. -/
def acc_three_of_four : AccountExecutionResult :=
  { wallet_address := "0xabc"
    overall_success := true
    summary_message := "done"
    module_results :=
      [("a", ⟨true, "ok"⟩), ("b", ⟨true, "ok"⟩), ("c", ⟨true, "ok"⟩),
        ("d", ⟨false, "failed"⟩)] }

/-! ## EIP-1559 fee computation (src/wallet.py, `_estimate_gas_params`) -/

/-- The EIP-1559 fee fields computed at wallet.py lines 295-317.
`min_base_fee` is the base-fee component actually used. -/
structure Eip1559Fees where
  min_base_fee : Nat
  maxPriorityFeePerGas : Nat
  maxFeePerGas : Nat
deriving DecidableEq

/-- The EIP-1559 branch of `_estimate_gas_params` (wallet.py lines
295-317).  `base_fee_random` and `priority_fee_random` stand for the
outputs of the averaging, buffering and 5-percent jitter steps
(lines 297-305); `r_base` and `r_prio` are the fresh
`random.randint(1, 10)` and `random.randint(1, 5)` draws of lines
308-309. -/
def estimate_gas_params_eip1559
    (base_fee_random priority_fee_random r_base r_prio : Nat) : Eip1559Fees :=
  let min_base_fee := max base_fee_random r_base
  let min_priority := max priority_fee_random r_prio
  { min_base_fee := min_base_fee
    maxPriorityFeePerGas := min_priority
    maxFeePerGas := min_base_fee * 2 + min_priority }

/-! ## Claim theorems (first group) -/

/-- C1: the spec says a fully-empty pair with percentage 0 is tolerated
and skipped, so one valid active pair plus one fully-empty zero pair
should validate.  The code instead falls through to the
partial-configuration check and rejects the table. -/
theorem validate_pair_swap_rejects_empty_zero_pair :
    validate_pair_swap [(1, ⟨"USDT", "PHRS", 50⟩), (2, ⟨"", "", 0⟩)] =
      .error (.incompletePair 2) := by
  decide

/-- C8: `token_balance` dispatches to the native-balance call exactly
when the supplied address string is a contiguous substring of the
zero-address literal; in particular the empty string, "0x0" and "000"
are treated as native, while an ordinary nonzero contract address is
dispatched to balanceOf. -/
theorem token_balance_native_dispatch_iff :
    (∀ s : String,
      token_balance s = .native ↔ ∃ l r, ZERO_ADDRESS.toList = l ++ s.toList ++ r) ∧
    token_balance "" = .native ∧
    token_balance "0x0" = .native ∧
    token_balance "000" = .native ∧
    token_balance "0x1234567890123456789012345678901234567890" =
      .balanceOf "0x1234567890123456789012345678901234567890" := by
  refine ⟨?_, by decide, by decide, by decide, by decide⟩
  intro s
  rw [token_balance, is_native_token]
  rcases hb : py_str_contains ZERO_ADDRESS s with _ | _
  · simp only [Bool.false_eq_true, if_false]
    constructor
    · intro hc; cases hc
    · intro hex
      rw [← py_str_contains_iff] at hex
      rw [hb] at hex
      cases hex
  · simp only [if_true]
    simp only [true_iff]
    rw [← py_str_contains_iff]
    exact hb

/-- C10: `success_percentage` is total: it returns 0 when no module
results are recorded, otherwise `round(successful / total * 100, 2)`;
3 successes out of 4 give exactly 75. -/
theorem success_percentage_spec (a : AccountExecutionResult) :
    (total_modules_count a = 0 → success_percentage a = 0) ∧
    (0 < total_modules_count a →
      success_percentage a =
        python_round_digits 2
          ((successful_modules_count a : Rat) / (total_modules_count a : Rat) * 100)) ∧
    success_percentage acc_three_of_four = 75 := by
  refine ⟨fun h => by simp [success_percentage, h], fun h => ?_, ?_⟩
  · rw [success_percentage, if_neg (Nat.pos_iff_ne_zero.mp h)]
  · have h1 : successful_modules_count acc_three_of_four = 3 := by rfl
    have h2 : total_modules_count acc_three_of_four = 4 := by rfl
    rw [success_percentage, h1, h2]
    norm_num [python_round_digits, python_round, Int.fract]

/-- Witness for C10 at concrete inputs. -/
theorem success_percentage_spec_witness :
    success_percentage ⟨"0x0", false, "none", []⟩ = 0 ∧
    success_percentage acc_three_of_four =
      python_round_digits 2
        ((successful_modules_count acc_three_of_four : Rat) /
          (total_modules_count acc_three_of_four : Rat) * 100) :=
  ⟨(success_percentage_spec ⟨"0x0", false, "none", []⟩).1 rfl,
    (success_percentage_spec acc_three_of_four).2.1 (by decide)⟩

/-- C6: whatever the averaged/buffered/jittered inputs are, the
EIP-1559 fees computed by `_estimate_gas_params` satisfy: priority fee
at least 1, base-fee component at least 1, and
maxFeePerGas = 2 * base + priority exactly. -/
theorem estimate_gas_params_fee_invariants
    (base_fee_random priority_fee_random r_base r_prio : Nat)
    (hb : 1 ≤ r_base ∧ r_base ≤ 10) (hp : 1 ≤ r_prio ∧ r_prio ≤ 5) :
    1 ≤ (estimate_gas_params_eip1559 base_fee_random priority_fee_random
          r_base r_prio).maxPriorityFeePerGas ∧
    1 ≤ (estimate_gas_params_eip1559 base_fee_random priority_fee_random
          r_base r_prio).min_base_fee ∧
    (estimate_gas_params_eip1559 base_fee_random priority_fee_random
          r_base r_prio).maxFeePerGas =
      2 * (estimate_gas_params_eip1559 base_fee_random priority_fee_random
            r_base r_prio).min_base_fee +
        (estimate_gas_params_eip1559 base_fee_random priority_fee_random
            r_base r_prio).maxPriorityFeePerGas := by
  refine ⟨?_, ?_, ?_⟩
  · exact le_trans hp.1 (le_max_right _ _)
  · exact le_trans hb.1 (le_max_right _ _)
  · simp [estimate_gas_params_eip1559]
    omega

/-- Witness for C6 at concrete random draws. -/
theorem estimate_gas_params_fee_invariants_witness :
    1 ≤ (estimate_gas_params_eip1559 1000 200 7 3).maxPriorityFeePerGas ∧
    1 ≤ (estimate_gas_params_eip1559 1000 200 7 3).min_base_fee ∧
    (estimate_gas_params_eip1559 1000 200 7 3).maxFeePerGas =
      2 * (estimate_gas_params_eip1559 1000 200 7 3).min_base_fee +
        (estimate_gas_params_eip1559 1000 200 7 3).maxPriorityFeePerGas :=
  estimate_gas_params_fee_invariants 1000 200 7 3 (by decide) (by decide)

/-! ## Transaction broadcast with nonce recovery (src/wallet.py,
`send_and_verify_transaction`, lines 449-487) -/

/-- What one `send_raw_transaction` + receipt wait can produce. -/
inductive SendOutcome
  | confirmedOk
  | confirmedRevert
  | timedOut
  | nonceTooLow
  | otherFailure
deriving DecidableEq

/-- Result of `send_and_verify_transaction`. -/
inductive TxResult
  | success
  | reverted
  | pending
  | failed
  | noMoreResponses
deriving DecidableEq

/-- `send_and_verify_transaction` (wallet.py lines 449-487): the chain
is abstracted as a list of per-broadcast outcomes, a list of values
returned by the pending `get_transaction_count` refetches, and the
transaction carries its nonce.  On a nonce-too-low failure the source
refetches the pending nonce, sets it to the failed nonce plus one when
the refetched value is not larger, and calls itself again (line 484).
The second component records the nonce of every broadcast attempt, in
order. -/
def send_and_verify_transaction :
    List SendOutcome → List Nat → Nat → TxResult × List Nat
  | [], _, _ => (.noMoreResponses, [])
  | outcome :: rest, nonce_fetches, nonce =>
    match outcome with
    | .confirmedOk => (.success, [nonce])
    | .confirmedRevert => (.reverted, [nonce])
    | .timedOut => (.pending, [nonce])
    | .otherFailure => (.failed, [nonce])
    | .nonceTooLow =>
      let fetched := nonce_fetches.headD 0
      let new_nonce := if fetched ≤ nonce then nonce + 1 else fetched
      let res := send_and_verify_transaction rest (nonce_fetches.drop 1) new_nonce
      (res.1, nonce :: res.2)

/-! ## Captcha task-result polling (src/api/captcha/solver.py) -/

/-- A parsed getTaskResult response body. -/
structure TaskResultResponse where
  errorId : Option Int
  errorCode : Option String
  status : Option String
  solutionToken : Option String
deriving DecidableEq

/-- Errors the polling path can raise. -/
inductive CaptchaError
  | taskSolutionFailed (error_code : String)
  | insufficientBalance
  | pollingExhausted
deriving DecidableEq

/-- `_get_task_solution` (solver.py lines 205-234): any response whose
errorId is not 0 (or is missing) raises TaskSolutionError built from
the response's errorCode; otherwise the response is returned. -/
def get_task_solution (r : TaskResultResponse) :
    Except CaptchaError TaskResultResponse :=
  if r.errorId ≠ some 0 then
    .error (.taskSolutionFailed (r.errorCode.getD "Unknown"))
  else .ok r

/-- `_wait_for_solution` (solver.py lines 236-275), one parsed response
per polling attempt (the list has length MAX_RETRY_ATTEMPTS = 3 in the
deployed configuration; the embedding is over any attempt budget).
A "processing" status sleeps and polls again; errorId 12 is checked
only after `_get_task_solution` returned, a "ready" status with a
solution yields the token, and anything else consumes the attempt. -/
def wait_for_solution : List TaskResultResponse → Except CaptchaError String
  | [] => .error .pollingExhausted
  | r :: rest =>
    match get_task_solution r with
    | .error e => .error e
    | .ok task_result =>
      if task_result.status = some "processing" then wait_for_solution rest
      else if task_result.errorId = some 12 then .error .insufficientBalance
      else if task_result.status = some "ready" ∧ task_result.solutionToken.isSome then
        .ok (task_result.solutionToken.getD "")
      else wait_for_solution rest

/-! ## Daily check-in (src/tasks/pharos_tasks/daily_check_in.py) -/

/-- A parsed response of POST /sign/in: the `code` and `msg` fields of
`response['data']`. -/
structure CheckInResponse where
  code : Option Int
  msg : Option String
deriving DecidableEq

/-- `check_in` (daily_check_in.py lines 55-77): code 0 is success,
code 1 returns the backend message, anything else is an unknown
error. -/
def check_in (r : CheckInResponse) : Bool × Option String :=
  if r.code = some 0 then (true, some "True")
  else if r.code = some 1 then (false, r.msg)
  else (false, some "Unknown error")

/-- The retry loop of `run_daily_check_in` (daily_check_in.py lines
86-113), one backend response per attempt. -/
def run_daily_check_in_loop : List CheckInResponse → Bool × String
  | [] => (false, "Failed Daily Check-in after 3 attempts")
  | r :: rest =>
    let res := check_in r
    if res.1 then (true, "Successfully Daily Check-in")
    else if res.2 = some "already signed in today" then
      (true, "It has not even been 24 hours since the last Daily Check-in")
    else run_daily_check_in_loop rest

/-- `run_daily_check_in` (daily_check_in.py lines 79-113): the
connect-wallet step is abstracted as its (success, token-or-message)
result; on success the check-in loop runs for MAX_RETRY_ATTEMPTS = 3
attempts. -/
def run_daily_check_in (connect_result : Bool × String)
    (responses : List CheckInResponse) : Bool × String :=
  if connect_result.1 then run_daily_check_in_loop (responses.take 3)
  else connect_result

/-! ## HTTP client retry policy (src/api/http/http_client.py) -/

/-- What one `_execute_single_request` call can produce: a response
with a status code, or one of the transport failures distinguished by
`send_request`'s except clauses. -/
inductive AttemptOutcome
  | response (status_code : Nat)
  | sslFailure
  | connFailure
  | timeoutFailure
  | disconnectFailure
deriving DecidableEq

/-- The APIClientError subclasses raised by the client. -/
inductive ApiError
  | rateLimit
  | clientSide (status_code : Nat)
  | serverSide (status_code : Nat)
  | ssl
  | connection
  | timedOut
  | exhausted
deriving DecidableEq

/-- `_handle_http_status` (http_client.py lines 168-194). -/
def handle_http_status (status_code : Nat) : Option ApiError :=
  if status_code = 429 then some .rateLimit
  else if 400 ≤ status_code ∧ status_code < 500 then some (.clientSide status_code)
  else if 500 ≤ status_code then some (.serverSide status_code)
  else none

/-- The retry loop of `send_request` (http_client.py lines 326-377),
given the outcome of each attempt and the `last_error` accumulator.
A clean response is status-checked when `validate_status` is set:
rate-limit and client-side errors are re-raised at once, a server-side
error is recorded and retried; transport failures are recorded and
retried; on exhaustion the last error (or a generic server-side error
when none was captured) is raised.  Returns the result together with
the number of attempts performed. -/
def send_request_attempts (validate_status : Bool) :
    List AttemptOutcome → Option ApiError → Except ApiError Nat × Nat
  | [], last_error =>
    (match last_error with
     | some e => .error e
     | none => .error .exhausted, 0)
  | outcome :: rest, _ =>
    match outcome with
    | .response status_code =>
      match (if validate_status then handle_http_status status_code else none) with
      | none => (.ok status_code, 1)
      | some .rateLimit => (.error .rateLimit, 1)
      | some (.clientSide s) => (.error (.clientSide s), 1)
      | some e =>
        let res := send_request_attempts validate_status rest (some e)
        (res.1, res.2 + 1)
    | .sslFailure =>
      let res := send_request_attempts validate_status rest (some .ssl)
      (res.1, res.2 + 1)
    | .connFailure =>
      let res := send_request_attempts validate_status rest (some .connection)
      (res.1, res.2 + 1)
    | .timeoutFailure =>
      let res := send_request_attempts validate_status rest (some .timedOut)
      (res.1, res.2 + 1)
    | .disconnectFailure =>
      let res := send_request_attempts validate_status rest (some .connection)
      (res.1, res.2 + 1)

/-- `send_request` (http_client.py lines 255-377): at most
`max_retries` attempts are made. -/
def send_request (validate_status : Bool) (max_retries : Nat)
    (outcomes : List AttemptOutcome) : Except ApiError Nat × Nat :=
  send_request_attempts validate_status (outcomes.take max_retries) none

/-! ## Claim theorems (second group) -/

/-- C2 counterexample: with a chain that reports nonce-too-low on the
first two broadcasts and accepts the third, `send_and_verify_transaction`
broadcasts 3 times, i.e. performs two corrective resends, contradicting
the claim that it never resends more than one additional time. -/
theorem send_and_verify_two_corrective_resends :
    (send_and_verify_transaction
        [.nonceTooLow, .nonceTooLow, .confirmedOk] [0, 0] 5).2 = [5, 6, 7] ∧
    ¬ (send_and_verify_transaction
        [.nonceTooLow, .nonceTooLow, .confirmedOk] [0, 0] 5).2.length ≤ 2 := by
  constructor
  · rfl
  · decide

/-- C2 amended: every nonce-too-low failure triggers a corrective
retry (refetch the pending nonce, bump past the failed nonce when the
refetch is not larger, resend), and the retries repeat without a cap
while the error recurs: k consecutive nonce-too-low failures followed
by an accepted broadcast give k+1 broadcasts with nonces
nonce, nonce+1, ..., nonce+k when every refetch is stale, and a
refetch larger than the failed nonce is used as-is. -/
theorem send_and_verify_retry_per_nonce_failure :
    (∀ k nonce : Nat,
      send_and_verify_transaction
          (List.replicate k .nonceTooLow ++ [.confirmedOk]) [] nonce =
        (.success, List.range' nonce (k + 1))) ∧
    send_and_verify_transaction [.nonceTooLow, .confirmedOk] [42] 5 =
      (.success, [5, 42]) := by
  refine ⟨?_, by rfl⟩
  intro k
  induction k with
  | zero =>
    intro nonce
    simp [send_and_verify_transaction, List.range'_succ]
  | succ k ih =>
    intro nonce
    rw [List.replicate_succ, List.cons_append, List.range'_succ]
    simp only [send_and_verify_transaction, List.headD_nil, List.drop_nil,
      Nat.zero_le, if_pos, ih (nonce + 1)]

/-- C3: a getTaskResult response with errorId 12 makes the solver fail
with the generic TaskSolutionError raised inside `_get_task_solution`
(built from the response's errorCode), and the dedicated
insufficient-balance branch of `_wait_for_solution` is unreachable:
no response sequence can make the polling loop raise
InsufficientBalanceError. -/
theorem wait_for_solution_error12_is_generic :
    wait_for_solution
        [{ errorId := some 12, errorCode := some "ERROR_ZERO_BALANCE",
           status := some "ready", solutionToken := some "tok" }] =
      .error (.taskSolutionFailed "ERROR_ZERO_BALANCE") ∧
    ∀ rs : List TaskResultResponse,
      wait_for_solution rs ≠ .error .insufficientBalance := by
  refine ⟨by rfl, ?_⟩
  intro rs
  induction rs with
  | nil => simp [wait_for_solution]
  | cons r rest ih =>
    simp only [wait_for_solution, get_task_solution]
    by_cases h0 : r.errorId = some 0
    · simp only [h0, ne_eq, not_true_eq_false, if_neg, if_false, reduceCtorEq]
      split
      · exact ih
      · split
        · rename_i h12
          exact absurd h12 (by decide)
        · split
          · simp
          · exact ih
    · simp [h0]

/-- C7 counterexample: a backend that replies with code 2 and message
"already signed in today" on every attempt makes the handler fail
after exhausting its attempts, so a non-zero code together with that
message does not in general yield a successful outcome: only code 1
surfaces the backend message. -/
theorem run_daily_check_in_code_two_fails :
    run_daily_check_in (true, "jwt")
        (List.replicate 3 ⟨some 2, some "already signed in today"⟩) =
      (false, "Failed Daily Check-in after 3 attempts") ∧
    ¬ (run_daily_check_in (true, "jwt")
        (List.replicate 3 ⟨some 2, some "already signed in today"⟩)).1 = true := by
  constructor
  · rfl
  · intro h
    simp only [run_daily_check_in, run_daily_check_in_loop, check_in] at h
    revert h
    decide

/-- C7 amended: when connect-wallet succeeded and the backend replies
with code exactly 1 and message "already signed in today", the handler
returns a successful outcome with an explanatory message; this holds
on every such call, in particular on a repeated call within 24 hours
of a successful check-in. -/
theorem run_daily_check_in_already_signed_success :
    ∀ rest : List CheckInResponse,
      run_daily_check_in (true, "jwt")
          (⟨some 1, some "already signed in today"⟩ :: rest) =
        (true, "It has not even been 24 hours since the last Daily Check-in") := by
  intro rest
  simp [run_daily_check_in, run_daily_check_in_loop, check_in]

/-- C4: under status validation with max_retries = 3: a 429 response
raises the rate-limit error on the attempt that observed it with zero
further attempts; any other 4xx raises the client-side error likewise;
SSL, connection and timeout failures and 5xx responses are retried, so
500-500-200 succeeds after exactly 3 attempts (and so does a transport
failure prefix); when all attempts fail retryably the last observed
error is raised; and with no attempt performed a generic server-side
error is raised. -/
theorem send_request_retry_policy :
    (∀ (rest : List AttemptOutcome) (last_error : Option ApiError),
      send_request_attempts true (.response 429 :: rest) last_error =
        (.error .rateLimit, 1)) ∧
    (∀ (rest : List AttemptOutcome) (last_error : Option ApiError) (s : Nat),
      400 ≤ s → s < 500 → s ≠ 429 →
      send_request_attempts true (.response s :: rest) last_error =
        (.error (.clientSide s), 1)) ∧
    send_request true 3 [.response 500, .response 500, .response 200] =
      (.ok 200, 3) ∧
    send_request true 3 [.sslFailure, .timeoutFailure, .response 200] =
      (.ok 200, 3) ∧
    send_request true 3 [.response 503, .response 502, .response 500] =
      (.error (.serverSide 500), 3) ∧
    (∀ last_error : Option ApiError,
      send_request_attempts true [] last_error =
        ((match last_error with
          | some e => .error e
          | none => .error .exhausted), 0)) := by
  refine ⟨?_, ?_, by rfl, by rfl, by rfl, fun _ => rfl⟩
  · intro rest last_error
    rfl
  · intro rest last_error s h400 h500 h429
    simp only [send_request_attempts, handle_http_status, if_true]
    rw [if_neg h429, if_pos ⟨h400, h500⟩]

/-- Witness for C4 at concrete inputs. -/
theorem send_request_retry_policy_witness :
    send_request_attempts true [.response 404] none =
      (.error (.clientSide 404), 1) :=
  send_request_retry_policy.2.1 [] none 404 (by decide) (by decide) (by decide)

/-! ## Route optimisation (src/route_manager.py,
`RouteOptimizer.create_optimized_route`, lines 34-96) -/

def social_connections : List String := ["connect_twitter", "connect_discord"]

def faucet_list : List String := ["phrs_faucet", "zenith_faucet"]

/-- The eight task names that `create_optimized_route` places
specially. -/
def special_names : List String :=
  ["full_registration", "connect_wallet", "connect_twitter", "connect_discord",
    "full_faucets", "phrs_faucet", "zenith_faucet", "statistics_account"]

/-- The `if name in remaining: route.append(name); remaining.remove(name)`
pattern of route_manager.py (lines 45-47, 50-52, 67-69, 85-87): the
emitted segment and the updated remaining list. -/
def pick_one (name : String) (l : List String) : List String × List String :=
  if name ∈ l then ([name], l.erase name) else ([], l)

/-- The filter-shuffle-extend-remove pattern of route_manager.py
(lines 55-64 and 72-81): the group is filtered out of the remaining
tasks, shuffled, emitted, and its elements removed one by one
(`List.diff` is exactly that iterated `remove`). -/
def pick_group (names : List String) (shuffle : List String → List String)
    (l : List String) : List String × List String :=
  (shuffle (l.filter fun t => decide (t ∈ names)),
    l.diff (shuffle (l.filter fun t => decide (t ∈ names))))

/-- `create_optimized_route` (route_manager.py lines 34-96).  The three
`random.shuffle` calls are abstracted as the oracle functions
`sh_social`, `sh_faucet`, `sh_rest`; theorems assume only that they
permute their input. -/
def create_optimized_route
    (sh_social sh_faucet sh_rest : List String → List String)
    (tasks : List String) : List String :=
  if tasks = [] then []
  else
    let p1 := pick_one "full_registration" tasks
    let p2 := pick_one "connect_wallet" p1.2
    let p3 := pick_group social_connections sh_social p2.2
    let p4 := pick_one "full_faucets" p3.2
    let p5 := pick_group faucet_list sh_faucet p4.2
    let p6 := pick_one "statistics_account" p5.2
    p1.1 ++ p2.1 ++ p3.1 ++ p4.1 ++ p5.1 ++ sh_rest p6.2 ++ p6.1

theorem erase_eq_filter_decide (l : List String) (hnd : l.Nodup) (a : String) :
    l.erase a = l.filter fun t => decide (t ≠ a) := by
  rw [List.Nodup.erase_eq_filter hnd]
  apply List.filter_congr
  intro x _
  rw [Bool.eq_iff_iff]
  simp [bne_iff_ne]

theorem pick_one_fst (name : String) (l : List String) :
    (pick_one name l).1 = if name ∈ l then [name] else [] := by
  unfold pick_one
  split <;> rfl

theorem pick_one_snd (name : String) (l : List String) (hnd : l.Nodup) :
    (pick_one name l).2 = l.filter fun t => decide (t ≠ name) := by
  unfold pick_one
  split
  · exact erase_eq_filter_decide l hnd name
  · rename_i hni
    symm
    rw [List.filter_eq_self]
    intro x hx
    rw [decide_eq_true_iff]
    rintro rfl
    exact hni hx

theorem pick_group_snd (names : List String) (shuffle : List String → List String)
    (hsh : ∀ l, (shuffle l).Perm l) (l : List String) (hnd : l.Nodup) :
    (pick_group names shuffle l).2 = l.filter fun t => decide (t ∉ names) := by
  unfold pick_group
  rw [List.Nodup.diff_eq_filter hnd]
  apply List.filter_congr
  intro x hx
  rw [decide_eq_decide]
  rw [(hsh _).mem_iff, List.mem_filter, decide_eq_true_iff]
  constructor
  · intro hni hn
    exact hni ⟨hx, hn⟩
  · intro hn hni
    exact hn hni.2

/-- Merging a later filter through an earlier one when the later
predicate forces the earlier one. -/
theorem filter_of_stronger (p q : String → Bool) (l : List String)
    (h : ∀ x, p x = true → q x = true) :
    (l.filter q).filter p = l.filter p := by
  rw [List.filter_filter]
  apply List.filter_congr
  intro x _
  by_cases hp : p x = true
  · simp [hp, h x hp]
  · rw [Bool.not_eq_true] at hp
    simp [hp]

/-- Counting inside a filter that rejects the element. -/
theorem count_filter_neg (p : String → Bool) (a : String) (l : List String)
    (h : p a = false) : (l.filter p).count a = 0 := by
  rw [List.count_eq_zero]
  intro hm
  rw [List.mem_filter, h] at hm
  exact absurd hm.2 (by decide)

/-- Membership implies disequality from a name outside the group. -/
theorem decide_ne_of_mem (names : List String) (n : String) (hn : n ∉ names) :
    ∀ x, decide (x ∈ names) = true → decide (x ≠ n) = true := by
  intro x hx
  rw [decide_eq_true_iff] at hx
  rw [decide_eq_true_iff]
  rintro rfl
  exact hn hx

/-- Membership in one group implies non-membership in a disjoint one. -/
theorem decide_not_mem_of_mem (big small : List String)
    (hd : ∀ y ∈ small, y ∉ big) :
    ∀ x, decide (x ∈ small) = true → decide (x ∉ big) = true := by
  intro x hx
  rw [decide_eq_true_iff] at hx
  rw [decide_eq_true_iff]
  exact hd x hx

/-- Decomposition of the optimised route, shared by the ordering and
permutation claims: with permutation-preserving shuffles and a
duplicate-free task list, the route is exactly the concatenation of
the priority blocks of route_manager.py lines 44-94. -/
theorem create_optimized_route_decomp
    (sh_social sh_faucet sh_rest : List String → List String)
    (hsh1 : ∀ l, (sh_social l).Perm l) (hsh2 : ∀ l, (sh_faucet l).Perm l)
    (hsh3 : ∀ l, (sh_rest l).Perm l)
    (tasks : List String) (hnd : tasks.Nodup) :
    ∃ socials faucets others,
      socials.Perm (tasks.filter fun t => decide (t ∈ social_connections)) ∧
      faucets.Perm (tasks.filter fun t => decide (t ∈ faucet_list)) ∧
      others.Perm (tasks.filter fun t => decide (t ∉ special_names)) ∧
      create_optimized_route sh_social sh_faucet sh_rest tasks =
        (if "full_registration" ∈ tasks then ["full_registration"] else []) ++
        (if "connect_wallet" ∈ tasks then ["connect_wallet"] else []) ++
        socials ++
        (if "full_faucets" ∈ tasks then ["full_faucets"] else []) ++
        faucets ++ others ++
        (if "statistics_account" ∈ tasks then ["statistics_account"] else []) := by
  by_cases h0 : tasks = []
  · subst h0
    exact ⟨[], [], [], by simp, by simp, by simp, by simp [create_optimized_route]⟩
  · unfold create_optimized_route
    rw [if_neg h0]
    dsimp only
    set R1 := (pick_one "full_registration" tasks).2 with hR1def
    have hR1 : R1 = tasks.filter fun t => decide (t ≠ "full_registration") := by
      rw [hR1def]; exact pick_one_snd _ _ hnd
    have hndR1 : R1.Nodup := by rw [hR1]; exact hnd.filter _
    set R2 := (pick_one "connect_wallet" R1).2 with hR2def
    have hR2 : R2 = R1.filter fun t => decide (t ≠ "connect_wallet") := by
      rw [hR2def]; exact pick_one_snd _ _ hndR1
    have hndR2 : R2.Nodup := by rw [hR2]; exact hndR1.filter _
    set S1 := (pick_group social_connections sh_social R2).1 with hS1def
    set R3 := (pick_group social_connections sh_social R2).2 with hR3def
    have hR3 : R3 = R2.filter fun t => decide (t ∉ social_connections) := by
      rw [hR3def]; exact pick_group_snd _ _ hsh1 _ hndR2
    have hndR3 : R3.Nodup := by rw [hR3]; exact hndR2.filter _
    set R4 := (pick_one "full_faucets" R3).2 with hR4def
    have hR4 : R4 = R3.filter fun t => decide (t ≠ "full_faucets") := by
      rw [hR4def]; exact pick_one_snd _ _ hndR3
    have hndR4 : R4.Nodup := by rw [hR4]; exact hndR3.filter _
    set S2 := (pick_group faucet_list sh_faucet R4).1 with hS2def
    set R5 := (pick_group faucet_list sh_faucet R4).2 with hR5def
    have hR5 : R5 = R4.filter fun t => decide (t ∉ faucet_list) := by
      rw [hR5def]; exact pick_group_snd _ _ hsh2 _ hndR4
    have hndR5 : R5.Nodup := by rw [hR5]; exact hndR4.filter _
    set R6 := (pick_one "statistics_account" R5).2 with hR6def
    have hR6 : R6 = R5.filter fun t => decide (t ≠ "statistics_account") := by
      rw [hR6def]; exact pick_one_snd _ _ hndR5
    have hsoc : S1.Perm (tasks.filter fun t => decide (t ∈ social_connections)) := by
      rw [hS1def]
      refine (hsh1 _).trans ?_
      rw [hR2,
        filter_of_stronger _ _ _ (decide_ne_of_mem social_connections "connect_wallet" (by decide)),
        hR1,
        filter_of_stronger _ _ _ (decide_ne_of_mem social_connections "full_registration" (by decide))]
    have hfau : S2.Perm (tasks.filter fun t => decide (t ∈ faucet_list)) := by
      rw [hS2def]
      refine (hsh2 _).trans ?_
      rw [hR4,
        filter_of_stronger _ _ _ (decide_ne_of_mem faucet_list "full_faucets" (by decide)),
        hR3,
        filter_of_stronger _ _ _ (decide_not_mem_of_mem social_connections faucet_list (by decide)),
        hR2,
        filter_of_stronger _ _ _ (decide_ne_of_mem faucet_list "connect_wallet" (by decide)),
        hR1,
        filter_of_stronger _ _ _ (decide_ne_of_mem faucet_list "full_registration" (by decide))]
    have hR6eq : R6 = tasks.filter fun t => decide (t ∉ special_names) := by
      rw [hR6, hR5, hR4, hR3, hR2, hR1]
      simp only [List.filter_filter]
      apply List.filter_congr
      intro x _
      rw [Bool.eq_iff_iff]
      simp only [Bool.and_eq_true, decide_eq_true_eq, special_names, social_connections,
        faucet_list, List.mem_cons, List.not_mem_nil, or_false, not_or]
      tauto
    have hmem_cw : ("connect_wallet" ∈ R1) ↔ ("connect_wallet" ∈ tasks) := by
      rw [hR1]; simp
    have hmem_ff : ("full_faucets" ∈ R3) ↔ ("full_faucets" ∈ tasks) := by
      rw [hR3, hR2, hR1]; simp [social_connections]
    have hmem_st : ("statistics_account" ∈ R5) ↔ ("statistics_account" ∈ tasks) := by
      rw [hR5, hR4, hR3, hR2, hR1]; simp [social_connections, faucet_list]
    refine ⟨S1, S2, sh_rest R6, hsoc, hfau, hR6eq ▸ hsh3 R6, ?_⟩
    rw [pick_one_fst, pick_one_fst, pick_one_fst, pick_one_fst]
    simp only [hmem_cw, hmem_ff, hmem_st]

/-- A conditional singleton block holds no other name. -/
theorem count_block_ne (a b : String) (c : Prop) [Decidable c] (h : a ≠ b) :
    (if c then [b] else []).count a = 0 := by
  split
  · rw [List.count_singleton]
    rw [if_neg]
    simp only [beq_iff_eq]
    exact Ne.symm h
  · rfl

/-- A conditional singleton block holds its own name as often as a
duplicate-free list does. -/
theorem count_self_block (a : String) (tasks : List String) (hnd : tasks.Nodup) :
    (if a ∈ tasks then [a] else []).count a = tasks.count a := by
  by_cases hin : a ∈ tasks
  · rw [if_pos hin, List.count_eq_one_of_mem hnd hin]
    simp
  · rw [if_neg hin, List.count_eq_zero.mpr hin]
    rfl

/-- Positive case of counting inside a filter. -/
theorem count_filter_pos (p : String → Bool) (a : String) (l : List String)
    (h : p a = true) : (l.filter p).count a = l.count a :=
  List.count_filter h

/-- C5: the optimised route satisfies the documented ordering: an
initial full_registration block, then connect_wallet, then the present
social connections in some order, then full_faucets, then the present
faucets in some order, then all remaining tasks except
statistics_account in some order, and statistics_account last. -/
theorem create_optimized_route_priority_order
    (sh_social sh_faucet sh_rest : List String → List String)
    (hsh1 : ∀ l, (sh_social l).Perm l) (hsh2 : ∀ l, (sh_faucet l).Perm l)
    (hsh3 : ∀ l, (sh_rest l).Perm l)
    (tasks : List String) (hnd : tasks.Nodup) :
    ∃ socials faucets others,
      socials.Perm (tasks.filter fun t => decide (t ∈ social_connections)) ∧
      faucets.Perm (tasks.filter fun t => decide (t ∈ faucet_list)) ∧
      others.Perm (tasks.filter fun t => decide (t ∉ special_names)) ∧
      create_optimized_route sh_social sh_faucet sh_rest tasks =
        (if "full_registration" ∈ tasks then ["full_registration"] else []) ++
        (if "connect_wallet" ∈ tasks then ["connect_wallet"] else []) ++
        socials ++
        (if "full_faucets" ∈ tasks then ["full_faucets"] else []) ++
        faucets ++ others ++
        (if "statistics_account" ∈ tasks then ["statistics_account"] else []) :=
  create_optimized_route_decomp sh_social sh_faucet sh_rest hsh1 hsh2 hsh3 tasks hnd

/-- Witness for C5 on a concrete task list with identity shuffles. -/
theorem create_optimized_route_priority_order_witness :
    ∃ socials faucets others,
      socials.Perm
        ((["statistics_account", "swap_zenith", "connect_wallet", "phrs_faucet",
          "full_registration"]).filter fun t => decide (t ∈ social_connections)) ∧
      faucets.Perm
        ((["statistics_account", "swap_zenith", "connect_wallet", "phrs_faucet",
          "full_registration"]).filter fun t => decide (t ∈ faucet_list)) ∧
      others.Perm
        ((["statistics_account", "swap_zenith", "connect_wallet", "phrs_faucet",
          "full_registration"]).filter fun t => decide (t ∉ special_names)) ∧
      create_optimized_route id id id
          ["statistics_account", "swap_zenith", "connect_wallet", "phrs_faucet",
            "full_registration"] =
        (if "full_registration" ∈
            ["statistics_account", "swap_zenith", "connect_wallet", "phrs_faucet",
              "full_registration"] then ["full_registration"] else []) ++
        (if "connect_wallet" ∈
            ["statistics_account", "swap_zenith", "connect_wallet", "phrs_faucet",
              "full_registration"] then ["connect_wallet"] else []) ++
        socials ++
        (if "full_faucets" ∈
            ["statistics_account", "swap_zenith", "connect_wallet", "phrs_faucet",
              "full_registration"] then ["full_faucets"] else []) ++
        faucets ++ others ++
        (if "statistics_account" ∈
            ["statistics_account", "swap_zenith", "connect_wallet", "phrs_faucet",
              "full_registration"] then ["statistics_account"] else []) :=
  create_optimized_route_priority_order id id id
    (fun l => List.Perm.refl l) (fun l => List.Perm.refl l) (fun l => List.Perm.refl l)
    ["statistics_account", "swap_zenith", "connect_wallet", "phrs_faucet",
      "full_registration"] (by decide)

/-- C9: with permutation-preserving shuffles and pairwise-distinct task
names, the optimised route is a permutation of its input: nothing is
dropped, added, or duplicated. -/
theorem create_optimized_route_is_permutation
    (sh_social sh_faucet sh_rest : List String → List String)
    (hsh1 : ∀ l, (sh_social l).Perm l) (hsh2 : ∀ l, (sh_faucet l).Perm l)
    (hsh3 : ∀ l, (sh_rest l).Perm l)
    (tasks : List String) (hnd : tasks.Nodup) :
    (create_optimized_route sh_social sh_faucet sh_rest tasks).Perm tasks := by
  obtain ⟨socials, faucets, others, hs, hf, ho, heq⟩ :=
    create_optimized_route_decomp sh_social sh_faucet sh_rest hsh1 hsh2 hsh3 tasks hnd
  rw [heq, List.perm_iff_count]
  intro a
  simp only [List.count_append]
  rw [hs.count_eq, hf.count_eq, ho.count_eq]
  by_cases hsp : a ∈ special_names
  · simp only [special_names, List.mem_cons, List.not_mem_nil, or_false] at hsp
    rcases hsp with rfl | rfl | rfl | rfl | rfl | rfl | rfl | rfl
    · rw [count_block_ne _ "connect_wallet" _ (by decide),
        count_block_ne _ "full_faucets" _ (by decide),
        count_block_ne _ "statistics_account" _ (by decide),
        count_filter_neg _ _ _ (by decide), count_filter_neg _ _ _ (by decide),
        count_filter_neg _ _ _ (by decide), count_self_block _ _ hnd]
      simp
    · rw [count_block_ne _ "full_registration" _ (by decide),
        count_block_ne _ "full_faucets" _ (by decide),
        count_block_ne _ "statistics_account" _ (by decide),
        count_filter_neg _ _ _ (by decide), count_filter_neg _ _ _ (by decide),
        count_filter_neg _ _ _ (by decide), count_self_block _ _ hnd]
      simp
    · rw [count_block_ne _ "full_registration" _ (by decide),
        count_block_ne _ "connect_wallet" _ (by decide),
        count_block_ne _ "full_faucets" _ (by decide),
        count_block_ne _ "statistics_account" _ (by decide),
        count_filter_pos _ _ _ (by decide),
        count_filter_neg _ _ _ (by decide), count_filter_neg _ _ _ (by decide)]
      simp
    · rw [count_block_ne _ "full_registration" _ (by decide),
        count_block_ne _ "connect_wallet" _ (by decide),
        count_block_ne _ "full_faucets" _ (by decide),
        count_block_ne _ "statistics_account" _ (by decide),
        count_filter_pos _ _ _ (by decide),
        count_filter_neg _ _ _ (by decide), count_filter_neg _ _ _ (by decide)]
      simp
    · rw [count_block_ne _ "full_registration" _ (by decide),
        count_block_ne _ "connect_wallet" _ (by decide),
        count_block_ne _ "statistics_account" _ (by decide),
        count_filter_neg _ _ _ (by decide), count_filter_neg _ _ _ (by decide),
        count_filter_neg _ _ _ (by decide), count_self_block _ _ hnd]
      simp
    · rw [count_block_ne _ "full_registration" _ (by decide),
        count_block_ne _ "connect_wallet" _ (by decide),
        count_block_ne _ "full_faucets" _ (by decide),
        count_block_ne _ "statistics_account" _ (by decide),
        count_filter_neg _ _ _ (by decide),
        count_filter_pos _ _ _ (by decide), count_filter_neg _ _ _ (by decide)]
      simp
    · rw [count_block_ne _ "full_registration" _ (by decide),
        count_block_ne _ "connect_wallet" _ (by decide),
        count_block_ne _ "full_faucets" _ (by decide),
        count_block_ne _ "statistics_account" _ (by decide),
        count_filter_neg _ _ _ (by decide),
        count_filter_pos _ _ _ (by decide), count_filter_neg _ _ _ (by decide)]
      simp
    · rw [count_block_ne _ "full_registration" _ (by decide),
        count_block_ne _ "connect_wallet" _ (by decide),
        count_block_ne _ "full_faucets" _ (by decide),
        count_filter_neg _ _ _ (by decide), count_filter_neg _ _ _ (by decide),
        count_filter_neg _ _ _ (by decide), count_self_block _ _ hnd]
      simp
  · have hd := hsp
    simp only [special_names, List.mem_cons, List.not_mem_nil, or_false, not_or] at hd
    obtain ⟨h1, h2, h3, h4, h5, h6, h7, h8⟩ := hd
    rw [count_block_ne _ _ _ h1, count_block_ne _ _ _ h2, count_block_ne _ _ _ h5,
      count_block_ne _ _ _ h8,
      count_filter_neg _ _ _ (decide_eq_false (by simp [social_connections, h3, h4])),
      count_filter_neg _ _ _ (decide_eq_false (by simp [faucet_list, h6, h7])),
      count_filter_pos _ _ _ (decide_eq_true hsp)]
    simp

/-- Witness for C9 on the configured ROUTE_TASK list with identity
shuffles. -/
theorem create_optimized_route_is_permutation_witness :
    (create_optimized_route id id id
        ["daily_check_in", "full_faucets", "send_to_friends", "swap_zenith"]).Perm
      ["daily_check_in", "full_faucets", "send_to_friends", "swap_zenith"] :=
  create_optimized_route_is_permutation id id id
    (fun l => List.Perm.refl l) (fun l => List.Perm.refl l) (fun l => List.Perm.refl l)
    ["daily_check_in", "full_faucets", "send_to_friends", "swap_zenith"] (by decide)
